import Mathlib

/-!
Verification of the kopikopi-be order backend (`src/app.py`) against its
natural-language specification.  The Python source is shallowly embedded:
the MySQL store becomes an explicit `DBState` value, each Flask endpoint
becomes a pure function from inputs and state to a response together with
the post-transaction state (a rolled-back transaction returns the original
state unchanged), `NOW()` becomes an explicit `now : Nat` parameter, the
`random` module becomes explicit candidate streams, and the SMTP notifier
becomes an explicit success flag.  `Decimal` arithmetic is embedded as `Rat`
(both are exact).
-/

namespace KopiKopi

/-! ## Python string primitives used by the source -/

/-- Embedding of Python `str.strip()` (ASCII whitespace; the source only ever
strips ordinary spacing around emails, codes and reference numbers). -/
def pyIsSpace (c : Char) : Bool :=
  c = ' ' || c = '\t' || c = '\n' || c = '\r' || c.toNat = 11 || c.toNat = 12

def pyStripList (cs : List Char) : List Char :=
  ((cs.dropWhile pyIsSpace).reverse.dropWhile pyIsSpace).reverse

def pyStrip (s : String) : String :=
  ⟨pyStripList s.data⟩

/-- Embedding of Python `str.lower()` on the ASCII range. -/
def pyLower (s : String) : String :=
  ⟨s.data.map Char.toLower⟩

/-- Embedding of `str.replace(" ", "_")` (single-character replacement). -/
def pyUnderscoreSpaces (s : String) : String :=
  ⟨s.data.map (fun c => if c = ' ' then '_' else c)⟩

/-- Embedding of `str.replace(".", " ")`. -/
def pyDotsToSpaces (s : String) : String :=
  ⟨s.data.map (fun c => if c = '.' then ' ' else c)⟩

/-- Embedding of Python `str[:n]` truncation. -/
def pyTake (n : Nat) (s : String) : String :=
  ⟨s.data.take n⟩

def pyTitleAux : Bool → List Char → List Char
  | _, [] => []
  | prevAlpha, c :: cs =>
    (if c.isAlpha then (if prevAlpha then c.toLower else c.toUpper) else c)
      :: pyTitleAux c.isAlpha cs

/-- Embedding of Python `str.title()`: the first letter of every maximal
letter run is upper-cased, the remaining letters lower-cased. -/
def pyTitle (s : String) : String :=
  ⟨pyTitleAux false s.data⟩

def digitCharsVal (cs : List Char) : Option Nat :=
  if cs.isEmpty || !(cs.all Char.isDigit) then none
  else some (cs.foldl (fun acc c => acc * 10 + (c.toNat - 48)) 0)

/-- Embedding of Python `int(str)`: surrounding whitespace is stripped, an
optional sign is allowed, and at least one decimal digit is required. -/
def pyIntOfString (s : String) : Option Int :=
  match pyStripList s.data with
  | '-' :: rest => (digitCharsVal rest).map (fun n => -(n : Int))
  | '+' :: rest => (digitCharsVal rest).map (fun n => (n : Int))
  | rest => (digitCharsVal rest).map (fun n => (n : Int))

/-! ## Email validation and normalization (`app.py` lines 23, 169-174) -/

/-- Character class `[^@\s]` of `EMAIL_REGEX`. -/
def emailChar (c : Char) : Bool :=
  !(pyIsSpace c) && c ≠ '@'

/-- Splits a character list at its first `'@'`, if any. -/
def splitFirstAt : List Char → Option (List Char × List Char)
  | [] => none
  | c :: cs =>
    if c = '@' then some ([], cs)
    else (splitFirstAt cs).map (fun p => (c :: p.1, p.2))

/-- A dot occurring strictly inside the list (not first, not last). -/
def hasInteriorDot (cs : List Char) : Bool :=
  ((cs.drop 1).dropLast).contains '.'

/-- Embedding of `EMAIL_REGEX.match`: the pattern `^[^@\s]+@[^@\s]+\.[^@\s]+$`
matches exactly the strings with a single `'@'`, a nonempty whitespace-free
local part, and a whitespace-free domain with a dot strictly inside it. -/
def is_valid_email (email : String) : Bool :=
  match splitFirstAt email.data with
  | none => false
  | some (lp, dom) =>
    !lp.isEmpty && lp.all emailChar && dom.all emailChar && hasInteriorDot dom

/-- Embedding of `normalize_email`: `email.strip().lower()`. -/
def normalize_email (email : String) : String :=
  pyLower (pyStrip email)

/-! ## Tracking status normalization (`app.py` lines 185-191) -/

/-- Embedding of `normalize_tracking_status`, transcribed from the source:
strip, lower-case, turn spaces into underscores, then classify. -/
def normalize_tracking_status (dbStatus : Option String) : String :=
  let status := pyUnderscoreSpaces (pyLower (pyStrip (dbStatus.getD "")))
  if status = "cancelled" then "cancelled"
  else if status ∈ (["completed", "complete", "ready_for_pickup", "ready",
      "delivery", "delivered"] : List String) then "ready_for_pickup"
  else "pending"

/-- Written from the specification's words, for comparison with the source
function: exactly `cancelled` maps to `cancelled`; any of completed,
complete, ready, ready_for_pickup, delivery, delivered maps to
`ready_for_pickup`; every other input, including `NULL`, maps to `pending`. -/
def trackingStatusSpecModel (dbStatus : Option String) : String :=
  let status := pyUnderscoreSpaces (pyLower (pyStrip (dbStatus.getD "")))
  if status = "cancelled" then "cancelled"
  else if status ∈ (["completed", "complete", "ready", "ready_for_pickup",
      "delivery", "delivered"] : List String) then "ready_for_pickup"
  else "pending"

/-! ## Cart values and the pricing resolver (`build_order_items`, lines 275-310) -/

/-- JSON scalar values a cart line field can carry in the embedding. -/
inductive Value
  | vint (n : Int)
  | vstr (s : String)
  | vnone
deriving DecidableEq, Repr

/-- Embedding of Python `int(value)` on the embedded JSON scalars:
integers pass through, strings are parsed, `None` raises `TypeError`. -/
def pyInt : Value → Option Int
  | .vint n => some n
  | .vstr s => pyIntOfString s
  | .vnone => none

/-- One raw cart line, keeping exactly the fields the source reads:
`id`, `menu_id` (fallback) and `qty`.  A field holds `none` when the key is
absent from the JSON object. -/
structure RawItem where
  id? : Option Value
  menuId? : Option Value
  qty? : Option Value
deriving DecidableEq, Repr

/-- Embedding of `raw_item.get("id", raw_item.get("menu_id"))`. -/
def rawItemIdValue (r : RawItem) : Value :=
  match r.id? with
  | some v => v
  | none =>
    match r.menuId? with
    | some v => v
    | none => .vnone

/-- Embedding of `int(raw_item.get("qty", 1))`: a missing `qty` key defaults
to the integer `1` before coercion. -/
def rawItemQty (r : RawItem) : Option Int :=
  match r.qty? with
  | none => some 1
  | some v => pyInt v

/-- The fields of a `menu` row that `build_order_items` reads from the
`menu_map` snapshot. -/
structure MenuInfo where
  name : String
  price : Rat
  imageUrl : Option String
deriving DecidableEq, Repr

/-- One priced line of the order snapshot, as appended by
`build_order_items`. -/
structure OrderItem where
  id : Int
  name : String
  qty : Int
  price : Rat
  lineTotal : Rat
  imageUrl : Option String
deriving DecidableEq, Repr

/-- The three `ValueError`s `build_order_items` can raise. -/
inductive CartError
  | invalidPayload
  | qtyTooSmall
  | unavailable (menuId : Int)
deriving DecidableEq, Repr

/-- Embedding of `build_order_items`: lines are processed in order; the first
invalid line raises; each valid line contributes `price * qty` to the exact
running total. -/
def build_order_items (menuMap : Int → Option MenuInfo) :
    List RawItem → Except CartError (List OrderItem × Rat)
  | [] => .ok ([], 0)
  | r :: rest =>
    match pyInt (rawItemIdValue r), rawItemQty r with
    | none, _ => .error .invalidPayload
    | some _, none => .error .invalidPayload
    | some menuId, some qty =>
      if qty < 1 then .error .qtyTooSmall
      else
        match menuMap menuId with
        | none => .error (.unavailable menuId)
        | some info =>
          let lineTotal := info.price * (qty : Rat)
          match build_order_items menuMap rest with
          | .error e => .error e
          | .ok (items, total) =>
            .ok (⟨menuId, info.name, qty, info.price, lineTotal, info.imageUrl⟩ :: items,
                 lineTotal + total)

/-! ## Persistent rows and the store -/

/-- One row of the `code_verify` table.  Status values as used by the
source: `0` pending, `1` consumed, `2` superseded. -/
structure CodeVerifyRow where
  id : Nat
  identifier : String
  code : String
  status : Nat
  createdAt : Nat
  expiresAt : Option Nat
  usedAt : Option Nat
deriving DecidableEq, Repr

/-- One row of the `customer` table (the columns the source touches). -/
structure CustomerRow where
  id : Nat
  businessName : String
  dealerName : String
  email : String
  phoneNumber : String
  address : String
deriving DecidableEq, Repr

/-- Abstraction of the external JSON codec (Python stdlib `json`): the
`orders.items` column stores either a well-formed dump of the built item
list, some other JSON value that is not a list, or text that is not valid
JSON.  `json.dumps` of the built order items always yields the first form. -/
inductive Snapshot
  | ofItems (items : List OrderItem)
  | nonListJson
  | notJson (raw : String)
deriving DecidableEq, Repr

/-- One row of the `orders` table.  `dateCreated` is filled by the store at
insertion time (the insert statement does not set it; the tracking query
reads it back), modelled as the transaction's `now`.  `items = none` models
a NULL or empty snapshot column. -/
structure OrderRow where
  id : Nat
  refNum : String
  customerName : String
  customerId : Nat
  amount : Rat
  items : Option Snapshot
  status : String
  invoiceSent : String
  paid : String
  dateCreated : Option Nat
deriving DecidableEq, Repr

/-- One row of the `menu` table (the columns the order path reads). -/
structure MenuRow where
  id : Int
  name : String
  price : Rat
  imageUrl : Option String
  isAvailable : Bool
deriving DecidableEq, Repr

/-- The whole store, with auto-increment counters for the three tables the
source inserts into. -/
structure DBState where
  codeVerify : List CodeVerifyRow
  customers : List CustomerRow
  orders : List OrderRow
  menu : List MenuRow
  nextCodeVerifyId : Nat
  nextCustomerId : Nat
  nextOrderId : Nat
deriving DecidableEq, Repr

/-- Per-request environment: the transaction's clock, the streams of random
OTP / reference-number candidates the `random` module would produce, the
notifier outcome, and the configured shop address. -/
structure Env where
  now : Nat
  otpCandidates : Nat → String
  refCandidates : Nat → String
  emailOk : Bool
  shopAddress : String

/-! ## Bounded insert-retry loop (`for _ in range(8)` at lines 391 and 549) -/

/-- Outcome of one insert attempt: success, MySQL duplicate-key error 1062,
or any other persistence error. -/
inductive TryOutcome
  | ok
  | dupKey
  | otherErr
deriving DecidableEq, Repr

/-- Result of the whole loop: the index that inserted, the index whose
non-duplicate error was re-raised, or exhaustion of all attempts. -/
inductive LoopResult
  | success (i : Nat)
  | failed (i : Nat)
  | exhausted
deriving DecidableEq, Repr

/-- Transcription of the source's retry loop: at most `fuel` attempts
starting at index `i`; a duplicate-key violation regenerates and retries,
any other error propagates immediately, running out of attempts falls
through to the loop's else-branch. -/
def insertLoopAux (attempt : Nat → TryOutcome) : Nat → Nat → LoopResult
  | _, 0 => .exhausted
  | i, fuel + 1 =>
    match attempt i with
    | .ok => .success i
    | .dupKey => insertLoopAux attempt (i + 1) fuel
    | .otherErr => .failed i

/-- The source's `for _ in range(8)` insert loop. -/
def insertLoop (attempt : Nat → TryOutcome) : LoopResult :=
  insertLoopAux attempt 0 8

/-! ## `POST /api/orders/request-code` (`request_order_code`, lines 371-426) -/

/-- The four return points of the request-code endpoint, in source order:
400 invalid email, 500 code-generation failure, 500 email-send failure,
200 success (`expires_in_seconds: 300`). -/
inductive RequestCodeResp
  | badEmail
  | genFailed
  | emailFailed
  | okResp
deriving DecidableEq, Repr

def requestCodeStatus : RequestCodeResp → Nat
  | .badEmail => 400
  | .genFailed => 500
  | .emailFailed => 500
  | .okResp => 200

/-- Embedding of `UPDATE code_verify SET status = 2 WHERE identifier = %s
AND status = 0` (line 385). -/
def supersedePending (rows : List CodeVerifyRow) (e : String) : List CodeVerifyRow :=
  rows.map (fun r =>
    if r.identifier == e && r.status == 0 then { r with status := 2 } else r)

/-- Modelled from the spec: the `code_verify` schema is not in `src/`; the
spec describes a uniqueness constraint on codes among non-terminal (pending)
rows that makes the insert raise MySQL duplicate-key error 1062.  A
candidate collides exactly when some pending row already carries the same
code. -/
def otpCodeTaken (rows : List CodeVerifyRow) (code : String) : Bool :=
  rows.any (fun r => r.code == code && r.status == 0)

/-- One attempt of the OTP insert loop against a fixed row set (a failed
insert writes nothing, so the set is the same on every attempt). -/
def otpAttempt (rows : List CodeVerifyRow) (env : Env) (i : Nat) : TryOutcome :=
  if otpCodeTaken rows (env.otpCandidates i) then .dupKey else .ok

/-- The row inserted by `INSERT INTO code_verify (identifier, code, status,
expires_at) VALUES (%s, %s, 0, NULL)` (lines 394-399): note the expiry
column is explicitly NULL.  `createdAt` is filled by the store at insertion
time, modelled as the transaction's `now`. -/
def newPendingRow (st : DBState) (e code : String) (now : Nat) : CodeVerifyRow :=
  ⟨st.nextCodeVerifyId, e, code, 0, now, none, none⟩

/-- Embedding of the `request_order_code` endpoint.  The transaction either
commits (supersede plus one insert) or rolls back wholly; the email send
happens strictly after commit and cannot undo it. -/
def request_order_code (env : Env) (st : DBState) (emailRaw : String) :
    RequestCodeResp × DBState :=
  let e := normalize_email emailRaw
  if is_valid_email e then
    let rows1 := supersedePending st.codeVerify e
    match insertLoop (otpAttempt rows1 env) with
    | .success i =>
      let st' : DBState :=
        { st with
          codeVerify := rows1 ++ [newPendingRow st e (env.otpCandidates i) env.now]
          nextCodeVerifyId := st.nextCodeVerifyId + 1 }
      if env.emailOk then (.okResp, st') else (.emailFailed, st')
    | _ => (.genFailed, st)
  else (.badEmail, st)

/-! ## `POST /api/orders/verify-and-create` (`verify_and_create_order`, lines 428-626) -/

/-- The return points of the verify-and-create endpoint, in source order.
`cartError` carries the `ValueError` raised by `build_order_items` (the
HTTP body holds its message).  `okResp` carries the 200 payload fields the
claims are about; `emailSent = false` corresponds to a populated
`email_error` field, and never changes the HTTP status. -/
inductive VerifyCreateResp
  | badEmail
  | badCode
  | badItems
  | invalidOrExpired
  | invalidMenuItem
  | cartError (e : CartError)
  | noValidItems
  | serverError (details : String)
  | okResp (orderId : Nat) (refNum : String) (amount : Rat) (emailSent : Bool)
deriving DecidableEq, Repr

def vcStatus : VerifyCreateResp → Nat
  | .badEmail => 400
  | .badCode => 400
  | .badItems => 400
  | .invalidOrExpired => 400
  | .invalidMenuItem => 400
  | .cartError _ => 400
  | .noValidItems => 400
  | .serverError _ => 500
  | .okResp _ _ _ _ => 200

def isSuccess : VerifyCreateResp → Bool
  | .okResp _ _ _ _ => true
  | _ => false

/-- Embedding of the code-format guard `not code or not code.isdigit() or
len(code) != 4` (line 440), applied to the already-stripped code. -/
def codeFormatOk (code : String) : Bool :=
  !code.data.isEmpty && code.data.all Char.isDigit && code.data.length == 4

/-- Embedding of the customer-name fallback (lines 445-446): an empty
supplied name is derived from the email's local part. -/
def deriveCustomerName (e nameRaw : String) : String :=
  let n := pyStrip nameRaw
  if n = "" then
    let lp : List Char :=
      match splitFirstAt e.data with
      | none => e.data
      | some p => p.1
    let base := pyTake 100 (pyTitle (pyDotsToSpaces ⟨lp⟩))
    if base = "" then "Guest" else base
  else n

/-- Embedding of the lazy supersede `UPDATE ... SET status = 2 WHERE
identifier = %s AND status = 0 AND expires_at <= NOW()` (lines 454-463);
a NULL expiry never satisfies the SQL comparison. -/
def lazySupersede (rows : List CodeVerifyRow) (e : String) (now : Nat) :
    List CodeVerifyRow :=
  rows.map (fun r =>
    if r.identifier == e && r.status == 0 &&
        (match r.expiresAt with
         | some t => decide (t ≤ now)
         | none => false) then
      { r with status := 2 }
    else r)

/-- The `WHERE` clause of the locking lookup (lines 465-478): pending row
for this identifier and code whose expiry lies strictly in the future; a
NULL expiry never satisfies `expires_at > NOW()`. -/
def matchesCode (now : Nat) (e code : String) (r : CodeVerifyRow) : Bool :=
  r.identifier == e && r.code == code && r.status == 0 &&
    (match r.expiresAt with
     | some t => decide (now < t)
     | none => false)

/-- Embedding of `ORDER BY created_at DESC LIMIT 1`: the matching row with
the greatest creation time. -/
def pickLatest (rows : List CodeVerifyRow) : Option CodeVerifyRow :=
  rows.foldl
    (fun acc r =>
      match acc with
      | none => some r
      | some b => if b.createdAt < r.createdAt then some r else some b)
    none

def lookupCodeRow (rows : List CodeVerifyRow) (now : Nat) (e code : String) :
    Option CodeVerifyRow :=
  pickLatest (rows.filter (matchesCode now e code))

/-- Embedding of the menu-id coercion loop (lines 484-491): every line's id
must coerce to an integer, in order, before the menu snapshot is read. -/
def coerceMenuIds : List RawItem → Option (List Int)
  | [] => some []
  | r :: rest =>
    match pyInt (rawItemIdValue r) with
    | none => none
    | some i => (coerceMenuIds rest).map (fun l => i :: l)

/-- The available `menu` row for one id, as the dict comprehension of line
505 would store it (a duplicated id keeps the last row fetched). -/
def menuLookup (menu : List MenuRow) (i : Int) : Option MenuInfo :=
  ((menu.filter (fun m => m.id == i && m.isAvailable)).getLast?).map
    (fun m => ⟨m.name, m.price, m.imageUrl⟩)

/-- Embedding of the `menu_map` dict built from `SELECT ... FROM menu WHERE
id IN (...) AND is_available = 1` (lines 493-505): only requested,
available ids are present. -/
def fetchMenuMap (menu : List MenuRow) (ids : List Int) (i : Int) : Option MenuInfo :=
  if ids.contains i then menuLookup menu i else none

/-- Embedding of `SELECT id FROM customer WHERE email = %s ORDER BY id DESC
LIMIT 1` (lines 512-521): the matching customer with the greatest id. -/
def latestCustomerByEmail (cs : List CustomerRow) (e : String) : Option CustomerRow :=
  (cs.filter (fun c => c.email == e)).foldl
    (fun acc c =>
      match acc with
      | none => some c
      | some b => if b.id < c.id then some c else some b)
    none

/-- Embedding of the customer upsert (lines 512-540): reuse the most recent
matching customer, else insert one from the display fields truncated to the
storage limits.  Returns the customer id, the new row list and the next
auto-increment value. -/
def upsertCustomer (st : DBState) (name e phone addr : String) :
    Nat × List CustomerRow × Nat :=
  match latestCustomerByEmail st.customers e with
  | some c => (c.id, st.customers, st.nextCustomerId)
  | none =>
    (st.nextCustomerId,
     st.customers ++ [⟨st.nextCustomerId, pyTake 150 name, pyTake 100 name, e,
       pyTake 25 phone, addr⟩],
     st.nextCustomerId + 1)

/-- Embedding of `UPDATE code_verify SET status = 1, used_at = NOW() WHERE
id = %s` (lines 542-545). -/
def consumeRow (rows : List CodeVerifyRow) (rid : Nat) (now : Nat) :
    List CodeVerifyRow :=
  rows.map (fun r =>
    if r.id == rid then { r with status := 1, usedAt := some now } else r)

/-- Modelled from the spec: the `orders` schema is not in `src/`; the spec
states that reference numbers are unique across all orders, so a candidate
collides exactly when some order already carries it. -/
def refNumTaken (orders : List OrderRow) (ref : String) : Bool :=
  orders.any (fun o => o.refNum == ref)

/-- One attempt of the order insert loop (lines 549-579) against the fixed
order set of this transaction. -/
def refAttempt (orders : List OrderRow) (env : Env) (i : Nat) : TryOutcome :=
  if refNumTaken orders (env.refCandidates i) then .dupKey else .ok

/-- Embedding of the `verify_and_create_order` endpoint.  All failure paths
roll the transaction back and return the store unchanged; only the single
success path commits. -/
def verify_and_create_order (env : Env) (st : DBState) (emailRaw codeRaw : String)
    (items? : Option (List RawItem)) (customerNameRaw phoneRaw : String) :
    VerifyCreateResp × DBState :=
  let e := normalize_email emailRaw
  let code := pyStrip codeRaw
  if is_valid_email e then
    if codeFormatOk code then
      match items? with
      | none => (.badItems, st)
      | some rawItems =>
        if rawItems.isEmpty then (.badItems, st)
        else
          let customerName := deriveCustomerName e customerNameRaw
          let phone := let p := pyStrip phoneRaw; if p = "" then "N/A" else p
          let rows1 := lazySupersede st.codeVerify e env.now
          match lookupCodeRow rows1 env.now e code with
          | none => (.invalidOrExpired, st)
          | some codeRow =>
            match coerceMenuIds rawItems with
            | none => (.invalidMenuItem, st)
            | some menuIds =>
              match build_order_items (fetchMenuMap st.menu menuIds) rawItems with
              | .error err => (.cartError err, st)
              | .ok (orderItems, orderTotal) =>
                if orderItems.isEmpty then (.noValidItems, st)
                else
                  match upsertCustomer st customerName e phone env.shopAddress with
                  | (customerId, customers', nextCust') =>
                    let rows2 := consumeRow rows1 codeRow.id env.now
                    match insertLoop (refAttempt st.orders env) with
                    | .success i =>
                      let ref := env.refCandidates i
                      let newOrder : OrderRow :=
                        { id := st.nextOrderId
                          refNum := ref
                          customerName := pyTake 100 customerName
                          customerId := customerId
                          amount := orderTotal
                          items := some (.ofItems orderItems)
                          status := "Pending"
                          invoiceSent := "False"
                          paid := "False"
                          dateCreated := some env.now }
                      (.okResp st.nextOrderId ref orderTotal env.emailOk,
                       { st with
                         codeVerify := rows2
                         customers := customers'
                         orders := st.orders ++ [newOrder]
                         nextCodeVerifyId := st.nextCodeVerifyId
                         nextCustomerId := nextCust'
                         nextOrderId := st.nextOrderId + 1 })
                    | _ => (.serverError "Could not create order reference number.", st)
    else (.badCode, st)
  else (.badEmail, st)

/-! ## `GET /api/orders/<ref_num>` (`get_order_tracking`, lines 628-710) -/

/-- The keys of `STATUS_FLOW` (lines 25-28). -/
def STATUS_FLOW_KEYS : List String := ["pending", "ready_for_pickup"]

def listIndexOf : List String → String → Option Nat
  | [], _ => none
  | x :: xs, s => if x == s then some 0 else (listIndexOf xs s).map (fun n => n + 1)

/-- Embedding of `flow_keys.index(status_key) if status_key in flow_keys
else 0` (line 668). -/
def currentIndexOf (k : String) : Nat :=
  (listIndexOf STATUS_FLOW_KEYS k).getD 0

/-- Embedding of `str(field or "False").lower() == "true"` (lines 701-702). -/
def pyBoolField (s : String) : Bool :=
  pyLower (if s = "" then "False" else s) == "true"

/-- One displayed line of the tracking payload (lines 678-688). -/
structure TrackItemView where
  name : String
  qty : Int
  lineTotal : Rat
deriving DecidableEq, Repr

/-- Embedding of the snapshot re-parse (lines 671-676): a NULL or empty
column reads as `[]`, malformed JSON degrades to `[]`, a non-list JSON
value degrades to `[]`, and a well-formed dump is displayed per line. -/
def parseSnapshotItems : Option Snapshot → List TrackItemView
  | none => []
  | some (.ofItems l) => l.map (fun it => ⟨it.name, it.qty, it.lineTotal⟩)
  | some .nonListJson => []
  | some (.notJson _) => []

/-- The `order` object of the tracking payload (lines 690-704). -/
structure TrackOrderView where
  id : Nat
  orderNumber : String
  orderStatus : String
  orderStatusLabel : String
  dbStatus : String
  customerName : String
  amount : Rat
  dateCreated : Option Nat
  invoiceSent : Bool
  paid : Bool
  email : Option String
deriving DecidableEq, Repr

def mkTrackView (st : DBState) (row : OrderRow) : TrackOrderView :=
  let statusKey := normalize_tracking_status (some row.status)
  { id := row.id
    orderNumber := row.refNum
    orderStatus := statusKey
    orderStatusLabel := if statusKey = "ready_for_pickup" then "Ready for Pickup" else "Pending"
    dbStatus := row.status
    customerName := row.customerName
    amount := row.amount
    dateCreated := row.dateCreated
    invoiceSent := pyBoolField row.invoiceSent
    paid := pyBoolField row.paid
    email := (st.customers.find? (fun c => c.id == row.customerId)).map (fun c => c.email) }

/-- The return points of the tracking endpoint: 400 empty reference, 404
not found, 200 with the rendered payload. -/
inductive TrackResp
  | badRef
  | notFound
  | okResp (order : TrackOrderView) (orderItems : List TrackItemView)
      (statusFlowKeys : List String) (currentIndex : Nat) (isCancelled : Bool)
deriving DecidableEq, Repr

/-- Embedding of the `get_order_tracking` endpoint (read-only). -/
def get_order_tracking (st : DBState) (refRaw : String) : TrackResp :=
  let ref := pyStrip refRaw
  if ref = "" then .badRef
  else
    match st.orders.find? (fun o => o.refNum == ref) with
    | none => .notFound
    | some row =>
      .okResp (mkTrackView st row) (parseSnapshotItems row.items) STATUS_FLOW_KEYS
        (currentIndexOf (normalize_tracking_status (some row.status)))
        (normalize_tracking_status (some row.status) == "cancelled")

/-! ## Derived predicates used by the statements -/

/-- The pending challenges a row set holds for one identifier. -/
def pendingFor (rows : List CodeVerifyRow) (ident : String) : List CodeVerifyRow :=
  rows.filter (fun r => r.identifier == ident && r.status == 0)

/-- The spec's invariant: at most one pending challenge per identifier. -/
def atMostOnePending (rows : List CodeVerifyRow) : Prop :=
  ∀ ident, (pendingFor rows ident).length ≤ 1

/-- A cart line the spec classifies as invalid against a store: its id or
quantity does not coerce to an integer, its quantity is below 1, or its id
has no available catalog row. -/
def lineInvalid (st : DBState) (r : RawItem) : Bool :=
  match pyInt (rawItemIdValue r) with
  | none => true
  | some i =>
    match rawItemQty r with
    | none => true
    | some q => decide (q < 1) || (menuLookup st.menu i).isNone

/-! ## Concrete witness data -/

def Wmenu : List MenuRow :=
  [⟨1, "Kopi", 5, none, true⟩, ⟨2, "Teh", 3, none, false⟩]

def WcartGood : List RawItem := [⟨some (.vint 1), none, some (.vint 2)⟩]

def WcartNoQty : List RawItem := [⟨some (.vint 1), none, none⟩]

def WcartBadQty : List RawItem := [⟨some (.vint 1), none, some (.vint 0)⟩]

def Wenv : Env :=
  ⟨1000, fun _ => "1234", fun _ => "KKREF1", true, "2/36 Rossmore Ave"⟩

def Wst0 : DBState := ⟨[], [], [], Wmenu, 10, 20, 30⟩

def WrowPending : CodeVerifyRow := ⟨5, "a@b.com", "1234", 0, 900, some 1300, none⟩

def WstPending : DBState := ⟨[WrowPending], [], [], Wmenu, 10, 20, 30⟩

def WorderTaken : OrderRow :=
  ⟨3, "KKREF1", "X", 20, 5, none, "Pending", "False", "False", none⟩

def WstTaken : DBState := { WstPending with orders := [WorderTaken] }

def WorderBadSnap : OrderRow :=
  ⟨4, "KKREF2", "Y", 20, 5, some (.notJson "not json"), "Pending", "False", "False", none⟩

def WstSnap : DBState := { Wst0 with orders := [WorderBadSnap] }

def WenvNoEmail : Env := { Wenv with emailOk := false }

def Wenv2 : Env := { Wenv with otpCandidates := fun _ => "5678", now := 1100 }

def Wst1 : DBState := (request_order_code Wenv Wst0 "a@b.com").2

def Wst2 : DBState := (request_order_code Wenv2 Wst1 "a@b.com").2

def Wrow1 : CodeVerifyRow := ⟨10, "a@b.com", "1234", 0, 1000, none, none⟩

/-! ## Lemmas about the retry loop -/

theorem insertLoopAux_success (attempt : Nat → TryOutcome) (k : Nat) :
    ∀ start fuel, k < fuel →
      (∀ j, j < k → attempt (start + j) = .dupKey) →
      attempt (start + k) = .ok →
      insertLoopAux attempt start fuel = .success (start + k) := by
  induction k with
  | zero =>
    intro start fuel hk hdup hok
    cases fuel with
    | zero => omega
    | succ f =>
      rw [Nat.add_zero] at hok
      simp only [insertLoopAux, hok, Nat.add_zero]
  | succ k ih =>
    intro start fuel hk hdup hok
    cases fuel with
    | zero => omega
    | succ f =>
      have h0 : attempt start = .dupKey := by
        have := hdup 0 (Nat.succ_pos k)
        simpa using this
      simp only [insertLoopAux, h0]
      have e1 : start + (k + 1) = (start + 1) + k := by omega
      rw [e1] at hok
      have hdup' : ∀ j, j < k → attempt ((start + 1) + j) = .dupKey := by
        intro j hj
        have := hdup (j + 1) (by omega)
        have e2 : start + (j + 1) = (start + 1) + j := by omega
        rwa [e2] at this
      have := ih (start + 1) f (by omega) hdup' hok
      rw [this, e1]

theorem insertLoopAux_exhausted (attempt : Nat → TryOutcome) (fuel : Nat) :
    ∀ start, (∀ j, j < fuel → attempt (start + j) = .dupKey) →
      insertLoopAux attempt start fuel = .exhausted := by
  induction fuel with
  | zero => intro start _; rfl
  | succ f ih =>
    intro start h
    have h0 : attempt start = .dupKey := by
      have := h 0 (Nat.succ_pos f)
      simpa using this
    simp only [insertLoopAux, h0]
    exact ih (start + 1) (fun j hj => by
      have := h (j + 1) (by omega)
      have e : start + (j + 1) = (start + 1) + j := by omega
      rwa [e] at this)

theorem insertLoopAux_failed (attempt : Nat → TryOutcome) (k : Nat) :
    ∀ start fuel, k < fuel →
      (∀ j, j < k → attempt (start + j) = .dupKey) →
      attempt (start + k) = .otherErr →
      insertLoopAux attempt start fuel = .failed (start + k) := by
  induction k with
  | zero =>
    intro start fuel hk hdup hbad
    cases fuel with
    | zero => omega
    | succ f =>
      rw [Nat.add_zero] at hbad
      simp only [insertLoopAux, hbad, Nat.add_zero]
  | succ k ih =>
    intro start fuel hk hdup hbad
    cases fuel with
    | zero => omega
    | succ f =>
      have h0 : attempt start = .dupKey := by
        have := hdup 0 (Nat.succ_pos k)
        simpa using this
      simp only [insertLoopAux, h0]
      have e1 : start + (k + 1) = (start + 1) + k := by omega
      rw [e1] at hbad
      have hdup' : ∀ j, j < k → attempt ((start + 1) + j) = .dupKey := by
        intro j hj
        have := hdup (j + 1) (by omega)
        have e2 : start + (j + 1) = (start + 1) + j := by omega
        rwa [e2] at this
      have := ih (start + 1) f (by omega) hdup' hbad
      rw [this, e1]

theorem insertLoop_success (attempt : Nat → TryOutcome) (k : Nat) (hk : k < 8)
    (hdup : ∀ j, j < k → attempt j = .dupKey) (hok : attempt k = .ok) :
    insertLoop attempt = .success k := by
  have := insertLoopAux_success attempt k 0 8 hk
    (fun j hj => by simpa using hdup j hj) (by simpa using hok)
  simpa using this

theorem insertLoop_exhausted (attempt : Nat → TryOutcome)
    (h : ∀ j, j < 8 → attempt j = .dupKey) :
    insertLoop attempt = .exhausted :=
  insertLoopAux_exhausted attempt 8 0 (fun j hj => by simpa using h j hj)

theorem insertLoop_failed (attempt : Nat → TryOutcome) (k : Nat) (hk : k < 8)
    (hdup : ∀ j, j < k → attempt j = .dupKey) (hbad : attempt k = .otherErr) :
    insertLoop attempt = .failed k := by
  have := insertLoopAux_failed attempt k 0 8 hk
    (fun j hj => by simpa using hdup j hj) (by simpa using hbad)
  simpa using this

/-! ## Lemmas about pending rows and the code lookup -/

theorem lookupCodeRow_eq_none (rows : List CodeVerifyRow) (now : Nat) (e code : String)
    (h : ∀ r ∈ rows, matchesCode now e code r = false) :
    lookupCodeRow rows now e code = none := by
  unfold lookupCodeRow
  have hnil : rows.filter (matchesCode now e code) = [] :=
    List.filter_eq_nil_iff.mpr (by intro a ha; simp [h a ha])
  rw [hnil]
  rfl

theorem matchesCode_spec (now : Nat) (e code : String) (r : CodeVerifyRow)
    (h : matchesCode now e code r = true) :
    r.identifier = e ∧ r.code = code ∧ r.status = 0 ∧
      ∃ t, r.expiresAt = some t ∧ now < t := by
  unfold matchesCode at h
  cases hexp : r.expiresAt with
  | none => rw [hexp] at h; simp at h
  | some t =>
    rw [hexp] at h
    simp only [Bool.and_eq_true, beq_iff_eq, decide_eq_true_eq] at h
    exact ⟨h.1.1.1, h.1.1.2, h.1.2, t, rfl, h.2⟩

theorem mem_supersedePending (rows : List CodeVerifyRow) (e : String)
    (r : CodeVerifyRow) (hr : r ∈ rows) (hid : r.identifier = e) (hst : r.status = 0) :
    { r with status := 2 } ∈ supersedePending rows e := by
  unfold supersedePending
  have hmem := List.mem_map_of_mem
    (fun r : CodeVerifyRow =>
      if r.identifier == e && r.status == 0 then { r with status := 2 } else r) hr
  simp only at hmem
  rwa [if_pos (by simp [hid, hst])] at hmem

theorem supersedePending_no_pending (rows : List CodeVerifyRow) (e : String)
    (r : CodeVerifyRow) (hr : r ∈ supersedePending rows e) (hid : r.identifier = e) :
    r.status ≠ 0 := by
  obtain ⟨r0, hr0, hf⟩ := List.mem_map.mp hr
  split at hf
  · rw [← hf]; simp
  · rename_i hc
    rw [← hf] at hid
    rw [← hf]
    intro hst
    exact hc (by simp [hid, hst])

theorem supersedePending_mem_of_pending (rows : List CodeVerifyRow) (e : String)
    (r : CodeVerifyRow) (hr : r ∈ supersedePending rows e) (hst : r.status = 0) :
    r ∈ rows := by
  obtain ⟨r0, hr0, hf⟩ := List.mem_map.mp hr
  split at hf
  · rw [← hf] at hst; simp at hst
  · rwa [← hf]

theorem lazySupersede_mem_of_pending (rows : List CodeVerifyRow) (e : String) (now : Nat)
    (r : CodeVerifyRow) (hr : r ∈ lazySupersede rows e now) (hst : r.status = 0) :
    r ∈ rows := by
  obtain ⟨r0, hr0, hf⟩ := List.mem_map.mp hr
  split at hf
  · rw [← hf] at hst; simp at hst
  · rwa [← hf]

theorem pendingFor_supersedePending_self (rows : List CodeVerifyRow) (e : String) :
    pendingFor (supersedePending rows e) e = [] := by
  apply List.filter_eq_nil_iff.mpr
  intro r hr
  simp only [Bool.and_eq_true, beq_iff_eq, not_and]
  intro hid
  have := supersedePending_no_pending rows e r hr hid
  simpa using this

theorem pendingFor_supersedePending_other (rows : List CodeVerifyRow) (e ident : String)
    (hne : ident ≠ e) :
    pendingFor (supersedePending rows e) ident = pendingFor rows ident := by
  induction rows with
  | nil => rfl
  | cons r rest ih =>
    unfold supersedePending pendingFor at *
    simp only [List.map_cons, List.filter_cons]
    split
    · rename_i hc
      simp only [Bool.and_eq_true, beq_iff_eq] at hc
      have hdrop1 : (({ r with status := 2 } : CodeVerifyRow).identifier == ident &&
          ({ r with status := 2 } : CodeVerifyRow).status == 0) = false := by
        simp
      have hdrop2 : (r.identifier == ident && r.status == 0) = false := by
        simp only [Bool.and_eq_false_iff, beq_eq_false_iff_ne, ne_eq]
        left
        rw [hc.1]
        exact fun h => hne h.symm
      rw [hdrop1, hdrop2]
      simpa using ih
    · split
      · simpa using congrArg (List.cons r) ih
      · simpa using ih

theorem pendingFor_append (xs ys : List CodeVerifyRow) (ident : String) :
    pendingFor (xs ++ ys) ident = pendingFor xs ident ++ pendingFor ys ident :=
  List.filter_append xs ys

/-! ## Lemmas about the pricing resolver -/

theorem build_order_items_ok (menuMap : Int → Option MenuInfo) :
    ∀ (raw : List RawItem) (items : List OrderItem) (total : Rat),
      build_order_items menuMap raw = .ok (items, total) →
      total = (items.map (fun it => it.lineTotal)).sum ∧
      items.length = raw.length ∧
      ∀ it ∈ items, ∃ info, menuMap it.id = some info ∧ it.price = info.price ∧
        it.lineTotal = info.price * (it.qty : Rat) ∧ 1 ≤ it.qty := by
  intro raw
  induction raw with
  | nil =>
    intro items total h
    rw [build_order_items] at h
    simp only [Except.ok.injEq, Prod.mk.injEq] at h
    obtain ⟨h1, h2⟩ := h
    subst h1
    subst h2
    simp
  | cons r rest ih =>
    intro items total h
    rw [build_order_items] at h
    split at h
    · exact absurd h (by simp)
    · exact absurd h (by simp)
    · rename_i menuId qty hid hqty
      split at h
      · exact absurd h (by simp)
      · rename_i hq
        split at h
        · exact absurd h (by simp)
        · rename_i info hinfo
          split at h
          · exact absurd h (by simp)
          · rename_i its t hrest
            simp only [Except.ok.injEq, Prod.mk.injEq] at h
            obtain ⟨hitems, htotal⟩ := h
            obtain ⟨ht, hlen, hall⟩ := ih its t hrest
            subst hitems
            constructor
            · rw [← htotal, ht]
              simp
            constructor
            · simp [hlen]
            · intro it hit
              rcases List.mem_cons.mp hit with heq | hmem
              · subst heq
                refine ⟨info, hinfo, rfl, rfl, ?_⟩
                show (1 : Int) ≤ qty
                omega
              · exact hall it hmem

theorem build_order_items_error_of_invalid (menuMap : Int → Option MenuInfo) :
    ∀ (raw : List RawItem),
      (∃ r ∈ raw,
        pyInt (rawItemIdValue r) = none ∨ rawItemQty r = none ∨
        (∃ q, rawItemQty r = some q ∧ q < 1) ∨
        (∃ i, pyInt (rawItemIdValue r) = some i ∧ menuMap i = none)) →
      ∃ e, build_order_items menuMap raw = .error e := by
  intro raw
  induction raw with
  | nil => intro h; simp at h
  | cons r rest ih =>
    intro h
    rw [build_order_items]
    cases hid : pyInt (rawItemIdValue r) with
    | none => exact ⟨.invalidPayload, by simp [hid]⟩
    | some menuId =>
      cases hqty : rawItemQty r with
      | none => exact ⟨.invalidPayload, by simp [hid, hqty]⟩
      | some qty =>
        by_cases hq : qty < 1
        · exact ⟨.qtyTooSmall, by simp [hid, hqty, hq]⟩
        · cases hinfo : menuMap menuId with
          | none => exact ⟨.unavailable menuId, by simp [hid, hqty, hq, hinfo]⟩
          | some info =>
            have hrest : ∃ r' ∈ rest,
                pyInt (rawItemIdValue r') = none ∨ rawItemQty r' = none ∨
                (∃ q, rawItemQty r' = some q ∧ q < 1) ∨
                (∃ i, pyInt (rawItemIdValue r') = some i ∧ menuMap i = none) := by
              obtain ⟨r', hr', hbad⟩ := h
              rcases List.mem_cons.mp hr' with heq | hmem
              · subst heq
                exfalso
                rcases hbad with h1 | h2 | ⟨q, hq1, hq2⟩ | ⟨i, hi1, hi2⟩
                · rw [hid] at h1; cases h1
                · rw [hqty] at h2; cases h2
                · rw [hqty] at hq1
                  injection hq1 with hq1
                  omega
                · rw [hid] at hi1
                  injection hi1 with hi1
                  subst hi1
                  rw [hinfo] at hi2
                  cases hi2
              · exact ⟨r', hmem, hbad⟩
            obtain ⟨e, he⟩ := ih hrest
            refine ⟨e, ?_⟩
            simp [hid, hqty, hq, hinfo, he]

theorem coerceMenuIds_mem (raw : List RawItem) :
    ∀ ids, coerceMenuIds raw = some ids →
      ∀ r ∈ raw, ∀ i, pyInt (rawItemIdValue r) = some i → i ∈ ids := by
  induction raw with
  | nil => intro ids _ r hr; simp at hr
  | cons x rest ih =>
    intro ids h r hr i hi
    rw [coerceMenuIds] at h
    split at h
    · cases h
    · rename_i j hj
      cases hrest : coerceMenuIds rest with
      | none => rw [hrest] at h; cases h
      | some l =>
        rw [hrest] at h
        simp only [Option.map_some', Option.some.injEq] at h
        subst h
        rcases List.mem_cons.mp hr with heq | hmem
        · subst heq
          rw [hj] at hi
          injection hi with hi
          simp [hi]
        · exact List.mem_cons_of_mem _ (ih l hrest r hmem i hi)

/-! ## Lemmas about the verify-and-create endpoint -/

theorem verify_no_success_of_null_expiry (cfg : Env) (st : DBState)
    (emailRaw codeRaw : String) (items? : Option (List RawItem)) (nameRaw phoneRaw : String)
    (h : ∀ r ∈ st.codeVerify, r.identifier = normalize_email emailRaw → r.status = 0 →
          r.expiresAt = none) :
    isSuccess (verify_and_create_order cfg st emailRaw codeRaw items? nameRaw phoneRaw).1
      = false := by
  have hlook : lookupCodeRow (lazySupersede st.codeVerify (normalize_email emailRaw) cfg.now)
      cfg.now (normalize_email emailRaw) (pyStrip codeRaw) = none := by
    apply lookupCodeRow_eq_none
    intro r' hr'
    by_contra hmc
    rw [Bool.not_eq_false] at hmc
    obtain ⟨hid, _, hst, t, hexp, _⟩ := matchesCode_spec _ _ _ _ hmc
    have hmem : r' ∈ st.codeVerify := lazySupersede_mem_of_pending _ _ _ _ hr' hst
    have hnone := h r' hmem hid hst
    rw [hnone] at hexp
    cases hexp
  simp only [verify_and_create_order, hlook]
  repeat' split
  all_goals rfl

theorem request_commit_inv (env : Env) (st : DBState) (emailRaw : String)
    (resp : RequestCodeResp) (st' : DBState)
    (h : request_order_code env st emailRaw = (resp, st'))
    (hr : resp = .okResp ∨ resp = .emailFailed) :
    ∃ i, insertLoop (otpAttempt (supersedePending st.codeVerify (normalize_email emailRaw)) env)
        = .success i ∧
      st'.codeVerify = supersedePending st.codeVerify (normalize_email emailRaw) ++
        [newPendingRow st (normalize_email emailRaw) (env.otpCandidates i) env.now] ∧
      st'.orders = st.orders ∧ st'.customers = st.customers ∧ st'.menu = st.menu := by
  simp only [request_order_code] at h
  split at h
  · split at h
    · rename_i i hloop
      refine ⟨i, hloop, ?_⟩
      split at h
      · injection h with h1 h2
        subst h2
        exact ⟨rfl, rfl, rfl, rfl⟩
      · injection h with h1 h2
        subst h2
        exact ⟨rfl, rfl, rfl, rfl⟩
    · injection h with h1 h2
      cases h1
      rcases hr with h | h <;> cases h
  · injection h with h1 h2
    cases h1
    rcases hr with h | h <;> cases h

theorem verify_ok_inv (env : Env) (st : DBState) (emailRaw codeRaw : String)
    (items? : Option (List RawItem)) (nameRaw phoneRaw : String)
    (oid : Nat) (ref : String) (amount : Rat) (esent : Bool) (st' : DBState)
    (h : verify_and_create_order env st emailRaw codeRaw items? nameRaw phoneRaw =
      (.okResp oid ref amount esent, st')) :
    ∃ rawItems menuIds orderItems i,
      items? = some rawItems ∧
      coerceMenuIds rawItems = some menuIds ∧
      build_order_items (fetchMenuMap st.menu menuIds) rawItems = .ok (orderItems, amount) ∧
      insertLoop (refAttempt st.orders env) = .success i ∧
      ref = env.refCandidates i ∧
      ∃ newOrder ∈ st'.orders, newOrder.refNum = ref ∧ newOrder.amount = amount ∧
        newOrder.items = some (Snapshot.ofItems orderItems) ∧ newOrder.status = "Pending" := by
  simp only [verify_and_create_order] at h
  split at h
  case isFalse => simp at h
  split at h
  case isFalse => simp at h
  split at h
  case h_1 => simp at h
  case h_2 itemsOpt rawItems =>
  split at h
  case isTrue => simp at h
  split at h
  case h_1 => simp at h
  case h_2 codeRow hrow =>
  split at h
  case h_1 => simp at h
  case h_2 menuIds hids =>
  split at h
  case h_1 => simp at h
  case h_2 orderItems orderTotal hbuild =>
  split at h
  case isTrue => simp at h
  split at h
  case h_2 => simp at h
  case h_1 i hloop =>
  injection h with h1 h2
  injection h1 with e1 e2 e3 e4
  subst h2
  subst e2
  subst e3
  refine ⟨rawItems, menuIds, orderItems, i, rfl, hids, hbuild, hloop, rfl, ?_⟩
  exact ⟨_, List.mem_append_right _ (List.mem_singleton.mpr rfl), rfl, rfl, rfl, rfl⟩

/-! ## Claim theorems -/

/-- C6: `normalize_tracking_status` is a pure total function on an optional
string that agrees everywhere with the mapping the spec describes (after
trimming, lowercasing and replacing spaces with underscores, exactly
"cancelled" maps to cancelled, any of completed/complete/ready/
ready_for_pickup/delivery/delivered maps to ready_for_pickup, every other
input including None maps to pending); in particular "Completed", "ready"
and "Delivered " map to ready_for_pickup and "CANCELLED" to cancelled. -/
theorem c6_normalize_tracking_status :
    (∀ s : Option String, normalize_tracking_status s = trackingStatusSpecModel s) ∧
    normalize_tracking_status (some "Completed") = "ready_for_pickup" ∧
    normalize_tracking_status (some "ready") = "ready_for_pickup" ∧
    normalize_tracking_status (some "Delivered ") = "ready_for_pickup" ∧
    normalize_tracking_status (some "CANCELLED") = "cancelled" ∧
    normalize_tracking_status none = "pending" := by
  refine ⟨fun s => ?_, by decide, by decide, by decide, by decide, by decide⟩
  simp only [normalize_tracking_status, trackingStatusSpecModel]
  generalize pyUnderscoreSpaces (pyLower (pyStrip (s.getD ""))) = t
  by_cases h1 : t = "cancelled"
  · simp [h1]
  · rw [if_neg h1, if_neg h1]
    have hm : (t ∈ (["completed", "complete", "ready_for_pickup", "ready",
          "delivery", "delivered"] : List String)) ↔
        (t ∈ (["completed", "complete", "ready", "ready_for_pickup",
          "delivery", "delivered"] : List String)) := by
      simp only [List.mem_cons, List.not_mem_nil, or_false]
      tauto
    by_cases h2 : t ∈ (["completed", "complete", "ready_for_pickup", "ready",
        "delivery", "delivered"] : List String)
    · rw [if_pos h2, if_pos (hm.mp h2)]
    · rw [if_neg h2, if_neg (fun hc => h2 (hm.mpr hc))]

/-- C10: a cart line that omits the qty field entirely is accepted and
treated as quantity 1: for an available catalog id the resolved line has
qty 1 and a line total equal to the catalog unit price, both as a singleton
cart and prepended to any cart that resolves. -/
theorem c10_default_qty_one (menuMap : Int → Option MenuInfo) (i : Int) (info : MenuInfo)
    (h : menuMap i = some info) :
    build_order_items menuMap [⟨some (.vint i), none, none⟩] =
      .ok ([⟨i, info.name, 1, info.price, info.price, info.imageUrl⟩], info.price) ∧
    ∀ rest items total, build_order_items menuMap rest = .ok (items, total) →
      build_order_items menuMap (⟨some (.vint i), none, none⟩ :: rest) =
        .ok (⟨i, info.name, 1, info.price, info.price, info.imageUrl⟩ :: items,
          info.price + total) := by
  have key : ∀ rest items total, build_order_items menuMap rest = .ok (items, total) →
      build_order_items menuMap (⟨some (.vint i), none, none⟩ :: rest) =
        .ok (⟨i, info.name, 1, info.price, info.price, info.imageUrl⟩ :: items,
          info.price + total) := by
    intro rest items total hrest
    rw [build_order_items]
    have hid : pyInt (rawItemIdValue ⟨some (.vint i), none, none⟩) = some i := rfl
    have hqty : rawItemQty ⟨some (.vint i), none, none⟩ = some 1 := rfl
    simp [hid, hqty, h, hrest]
  constructor
  · have h0 := key [] [] 0 rfl
    rwa [add_zero] at h0
  · exact key

/-- C10 witness: the singleton no-qty cart against the concrete menu. -/
theorem c10_witness :
    build_order_items (fetchMenuMap Wmenu [1]) WcartNoQty =
      .ok ([⟨1, "Kopi", 1, 5, 5, none⟩], 5) :=
  (c10_default_qty_one (fetchMenuMap Wmenu [1]) 1 ⟨"Kopi", 5, none⟩ (by decide)).1

/-- C4 (code bug): request-code at time 1000 returns 200 and commits the
challenge, but the persisted row's expiry is NULL rather than issuance plus
300 seconds, and the issued code is already rejected as invalid-or-expired
at time 1060 — 60 seconds after issuance, well inside the advertised
5-minute window — with the transaction rolled back. -/
theorem c4_expiry_never_set :
    (request_order_code Wenv Wst0 "a@b.com").1 = .okResp ∧
    (∀ r ∈ (request_order_code Wenv Wst0 "a@b.com").2.codeVerify,
      r.identifier = "a@b.com" ∧ r.code = "1234" ∧ r.status = 0 ∧ r.expiresAt = none) ∧
    verify_and_create_order { Wenv with now := 1060 }
        (request_order_code Wenv Wst0 "a@b.com").2
        "a@b.com" "1234" (some WcartGood) "" "" =
      (.invalidOrExpired, (request_order_code Wenv Wst0 "a@b.com").2) :=
  ⟨by decide, by decide, by decide⟩

/-- C8: for a persisted order whose serialized item snapshot is not valid
JSON, the tracking read still succeeds, returning the normal order payload
with an empty order_items list instead of failing. -/
theorem c8_malformed_snapshot_degrades (st : DBState) (refRaw : String) (row : OrderRow)
    (raw : String)
    (href : pyStrip refRaw ≠ "")
    (hfind : st.orders.find? (fun o => o.refNum == pyStrip refRaw) = some row)
    (hbad : row.items = some (.notJson raw)) :
    get_order_tracking st refRaw =
      .okResp (mkTrackView st row) [] STATUS_FLOW_KEYS
        (currentIndexOf (normalize_tracking_status (some row.status)))
        (normalize_tracking_status (some row.status) == "cancelled") := by
  simp only [get_order_tracking, if_neg href, hfind, hbad, parseSnapshotItems]

/-- C8 witness: a concrete store whose only order carries the non-JSON
snapshot text. -/
theorem c8_witness :
    get_order_tracking WstSnap "KKREF2" =
      .okResp (mkTrackView WstSnap WorderBadSnap) [] STATUS_FLOW_KEYS
        (currentIndexOf (normalize_tracking_status (some WorderBadSnap.status)))
        (normalize_tracking_status (some WorderBadSnap.status) == "cancelled") :=
  c8_malformed_snapshot_degrades WstSnap "KKREF2" WorderBadSnap "not json"
    (by decide) (by decide) (by decide)

/-- C1: when no pending, unexpired challenge row matches the normalized
email and code at lookup time, verify-and-create returns the 400
invalid-or-expired error and the store is returned unchanged: the customer
insert, order insert and code consumption of that request are all rolled
back. -/
theorem c1_invalid_code_rolls_back (env : Env) (st : DBState) (emailRaw codeRaw : String)
    (rawItems : List RawItem) (nameRaw phoneRaw : String)
    (hmail : is_valid_email (normalize_email emailRaw) = true)
    (hcode : codeFormatOk (pyStrip codeRaw) = true)
    (hne : rawItems.isEmpty = false)
    (hnone : ∀ r ∈ lazySupersede st.codeVerify (normalize_email emailRaw) env.now,
      matchesCode env.now (normalize_email emailRaw) (pyStrip codeRaw) r = false) :
    verify_and_create_order env st emailRaw codeRaw (some rawItems) nameRaw phoneRaw =
      (.invalidOrExpired, st) ∧
    vcStatus (verify_and_create_order env st emailRaw codeRaw (some rawItems)
      nameRaw phoneRaw).1 = 400 := by
  have hlook := lookupCodeRow_eq_none _ env.now _ _ hnone
  have hmain : verify_and_create_order env st emailRaw codeRaw (some rawItems)
      nameRaw phoneRaw = (.invalidOrExpired, st) := by
    simp [verify_and_create_order, hmail, hcode, hne, hlook]
  rw [hmain]
  exact ⟨rfl, rfl⟩

/-- C1 witness: an empty challenge table, a well-formed request. -/
theorem c1_witness :
    verify_and_create_order Wenv Wst0 "a@b.com" "1234" (some WcartGood) "" "" =
      (.invalidOrExpired, Wst0) ∧
    vcStatus (verify_and_create_order Wenv Wst0 "a@b.com" "1234"
      (some WcartGood) "" "").1 = 400 :=
  c1_invalid_code_rolls_back Wenv Wst0 "a@b.com" "1234" WcartGood "" ""
    (by decide) (by decide) (by decide) (by decide)

/-- C2: for every run of verify-and-create that succeeds, the returned and
persisted amount is exactly the total computed by `build_order_items`:
the exact sum over all lines of the catalog unit price times the quantity,
as resolved against the catalog snapshot, with no client-supplied amount
involved (cart lines carry only ids and quantities). -/
theorem c2_total_is_exact_catalog_sum (env : Env) (st : DBState) (emailRaw codeRaw : String)
    (items? : Option (List RawItem)) (nameRaw phoneRaw : String)
    (oid : Nat) (ref : String) (amount : Rat) (esent : Bool) (st' : DBState)
    (h : verify_and_create_order env st emailRaw codeRaw items? nameRaw phoneRaw =
      (.okResp oid ref amount esent, st')) :
    ∃ rawItems menuIds orderItems,
      items? = some rawItems ∧
      coerceMenuIds rawItems = some menuIds ∧
      build_order_items (fetchMenuMap st.menu menuIds) rawItems = .ok (orderItems, amount) ∧
      amount = (orderItems.map (fun it => it.price * (it.qty : Rat))).sum ∧
      (∀ it ∈ orderItems, ∃ info, fetchMenuMap st.menu menuIds it.id = some info ∧
        it.price = info.price ∧ it.lineTotal = info.price * (it.qty : Rat) ∧ 1 ≤ it.qty) ∧
      ∃ newOrder ∈ st'.orders, newOrder.refNum = ref ∧ newOrder.amount = amount ∧
        newOrder.items = some (Snapshot.ofItems orderItems) := by
  obtain ⟨rawItems, menuIds, orderItems, i, hitems, hids, hbuild, _, _,
    newOrder, hmem, href, hamt, hsnap, _⟩ :=
    verify_ok_inv env st emailRaw codeRaw items? nameRaw phoneRaw oid ref amount esent st' h
  obtain ⟨htot, _, hall⟩ := build_order_items_ok _ rawItems orderItems amount hbuild
  refine ⟨rawItems, menuIds, orderItems, hitems, hids, hbuild, ?_,
    fun it hit => hall it hit, newOrder, hmem, href, hamt, hsnap⟩
  rw [htot]
  congr 1
  apply List.map_congr_left
  intro it hit
  obtain ⟨info, _, hpr, hlt, _⟩ := hall it hit
  rw [hlt, hpr]

/-- C2 witness: a successful end-to-end run over a challenge row with a
real expiry, cart of one item priced 5 with quantity 2, amount 10. -/
theorem c2_witness :
    ∃ rawItems menuIds orderItems,
      (some WcartGood : Option (List RawItem)) = some rawItems ∧
      coerceMenuIds rawItems = some menuIds ∧
      build_order_items (fetchMenuMap WstPending.menu menuIds) rawItems =
        .ok (orderItems, 10) ∧
      (10 : Rat) = (orderItems.map (fun it => it.price * (it.qty : Rat))).sum ∧
      (∀ it ∈ orderItems, ∃ info, fetchMenuMap WstPending.menu menuIds it.id = some info ∧
        it.price = info.price ∧ it.lineTotal = info.price * (it.qty : Rat) ∧ 1 ≤ it.qty) ∧
      ∃ newOrder ∈ (verify_and_create_order Wenv WstPending "a@b.com" "1234"
          (some WcartGood) "Bob" "12").2.orders,
        newOrder.refNum = "KKREF1" ∧ newOrder.amount = 10 ∧
        newOrder.items = some (Snapshot.ofItems orderItems) :=
  c2_total_is_exact_catalog_sum Wenv WstPending "a@b.com" "1234" (some WcartGood) "Bob" "12"
    30 "KKREF1" 10 true
    (verify_and_create_order Wenv WstPending "a@b.com" "1234" (some WcartGood) "Bob" "12").2
    (by with_unfolding_all rfl)

/-- Committing one request-code transaction preserves the at-most-one
pending challenge per identifier invariant. -/
theorem atMostOnePending_commit (rows : List CodeVerifyRow) (e : String)
    (newRow : CodeVerifyRow) (hnew : newRow.identifier = e) (h : atMostOnePending rows) :
    atMostOnePending (supersedePending rows e ++ [newRow]) := by
  intro ident
  rw [pendingFor_append]
  by_cases hie : ident = e
  · subst hie
    rw [pendingFor_supersedePending_self]
    have hle : (pendingFor [newRow] ident).length ≤ [newRow].length :=
      List.length_filter_le _ _
    simpa using hle
  · rw [pendingFor_supersedePending_other rows e ident hie]
    have hzero : pendingFor [newRow] ident = [] := by
      unfold pendingFor
      have hcond : (newRow.identifier == ident && newRow.status == 0) = false := by
        simp only [Bool.and_eq_false_iff, beq_eq_false_iff_ne, ne_eq]
        left
        rw [hnew]
        exact fun hh => hie hh.symm
      simp [List.filter, hcond]
    rw [hzero, List.append_nil]
    exact h ident

/-- C3: a committed request-code call marks every previously pending
challenge for the identifier superseded before inserting the new pending
one, preserving the at-most-one-pending invariant across one and two
calls; consequently, after two request-code calls for the same email the
first issued code can no longer succeed in verify-and-create. -/
theorem c3_supersede_pending (env1 env2 : Env) (st0 st1 st2 : DBState) (emailRaw : String)
    (h1 : request_order_code env1 st0 emailRaw = (.okResp, st1))
    (h2 : request_order_code env2 st1 emailRaw = (.okResp, st2)) :
    (∀ r ∈ st0.codeVerify, r.identifier = normalize_email emailRaw → r.status = 0 →
      { r with status := 2 } ∈ st1.codeVerify) ∧
    (atMostOnePending st0.codeVerify →
      atMostOnePending st1.codeVerify ∧ atMostOnePending st2.codeVerify) ∧
    (∀ r ∈ st1.codeVerify, r.identifier = normalize_email emailRaw → r.status = 0 →
      ∀ cfg items? nameRaw phoneRaw,
        isSuccess (verify_and_create_order cfg st2 emailRaw r.code items?
          nameRaw phoneRaw).1 = false) := by
  obtain ⟨i1, _, hcv1, _, _, _⟩ :=
    request_commit_inv env1 st0 emailRaw _ st1 h1 (Or.inl rfl)
  obtain ⟨i2, _, hcv2, _, _, _⟩ :=
    request_commit_inv env2 st1 emailRaw _ st2 h2 (Or.inl rfl)
  refine ⟨?_, ?_, ?_⟩
  · intro r hr hid hst
    rw [hcv1]
    exact List.mem_append_left _ (mem_supersedePending _ _ _ hr hid hst)
  · intro h0
    have hinv1 : atMostOnePending st1.codeVerify := by
      rw [hcv1]
      exact atMostOnePending_commit _ _ _ rfl h0
    refine ⟨hinv1, ?_⟩
    rw [hcv2]
    exact atMostOnePending_commit _ _ _ rfl hinv1
  · intro r _ _ _ cfg items? nameRaw phoneRaw
    apply verify_no_success_of_null_expiry
    intro r' hr' hid' hst'
    rw [hcv2] at hr'
    rcases List.mem_append.mp hr' with hl | hr2
    · exact absurd hst' (supersedePending_no_pending _ _ _ hl hid')
    · rw [List.mem_singleton.mp hr2]
      rfl

/-- C3 witness: two concrete request-code calls for the same email; the
first call's pending row carries code "1234", and verifying with it
against the post-second-call store does not succeed. -/
theorem c3_witness :
    isSuccess (verify_and_create_order Wenv Wst2 "a@b.com" Wrow1.code
      (some WcartGood) "" "").1 = false :=
  (c3_supersede_pending Wenv Wenv2 Wst0 Wst1 Wst2 "a@b.com" (by decide) (by decide)).2.2
    Wrow1 (by decide) (by decide) (by decide) Wenv (some WcartGood) "" ""

/-- C9 (code bug): when the notification email fails after request-code
has committed, the endpoint returns a 500 error yet the freshly created
pending challenge remains persisted; however, because its expiry was
persisted as NULL, the issued code can never be consumed by any later
verify-and-create, contrary to the claim's final consequence. -/
theorem c9_email_failure_after_commit (env : Env) (st : DBState) (emailRaw : String) (i : Nat)
    (hmail : is_valid_email (normalize_email emailRaw) = true)
    (hsend : env.emailOk = false)
    (hsel : insertLoop (otpAttempt (supersedePending st.codeVerify
      (normalize_email emailRaw)) env) = .success i) :
    (request_order_code env st emailRaw).1 = .emailFailed ∧
    requestCodeStatus (request_order_code env st emailRaw).1 = 500 ∧
    newPendingRow st (normalize_email emailRaw) (env.otpCandidates i) env.now ∈
      (request_order_code env st emailRaw).2.codeVerify ∧
    (newPendingRow st (normalize_email emailRaw) (env.otpCandidates i) env.now).status = 0 ∧
    (newPendingRow st (normalize_email emailRaw) (env.otpCandidates i) env.now).expiresAt
      = none ∧
    ∀ cfg items? nameRaw phoneRaw,
      isSuccess (verify_and_create_order cfg (request_order_code env st emailRaw).2 emailRaw
        (env.otpCandidates i) items? nameRaw phoneRaw).1 = false := by
  have hmain : request_order_code env st emailRaw =
      (.emailFailed, { st with
        codeVerify := supersedePending st.codeVerify (normalize_email emailRaw) ++
          [newPendingRow st (normalize_email emailRaw) (env.otpCandidates i) env.now]
        nextCodeVerifyId := st.nextCodeVerifyId + 1 }) := by
    simp [request_order_code, hmail, hsel, hsend]
  rw [hmain]
  refine ⟨rfl, rfl, List.mem_append_right _ (List.mem_singleton.mpr rfl), rfl, rfl, ?_⟩
  intro cfg items? nameRaw phoneRaw
  apply verify_no_success_of_null_expiry
  intro r' hr' hid' hst'
  rcases List.mem_append.mp hr' with hl | hr2
  · exact absurd hst' (supersedePending_no_pending _ _ _ hl hid')
  · rw [List.mem_singleton.mp hr2]
    rfl

/-- C9 witness: a concrete failed-email request whose committed challenge
survives with a NULL expiry, and a later verify with the issued code that
does not succeed. -/
theorem c9_witness :
    (request_order_code WenvNoEmail Wst0 "a@b.com").1 = .emailFailed ∧
    newPendingRow Wst0 "a@b.com" "1234" 1000 ∈
      (request_order_code WenvNoEmail Wst0 "a@b.com").2.codeVerify ∧
    isSuccess (verify_and_create_order Wenv
      (request_order_code WenvNoEmail Wst0 "a@b.com").2
      "a@b.com" "1234" (some WcartGood) "" "").1 = false := by
  have h := c9_email_failure_after_commit WenvNoEmail Wst0 "a@b.com" 0
    (by decide) (by decide) (by decide)
  exact ⟨h.1, h.2.2.1, h.2.2.2.2.2 Wenv (some WcartGood) "" ""⟩

/-- C7: a cart containing any invalid line (id or qty that does not coerce
to an integer, quantity below 1, or id unknown or unavailable in the
catalog) makes verify-and-create fail with a 400 response and the store
returned unchanged: no order row is created and no code is consumed. -/
theorem c7_invalid_cart_rejected (env : Env) (st : DBState) (emailRaw codeRaw : String)
    (rawItems : List RawItem) (nameRaw phoneRaw : String)
    (hmail : is_valid_email (normalize_email emailRaw) = true)
    (hcode : codeFormatOk (pyStrip codeRaw) = true)
    (hne : rawItems.isEmpty = false)
    (hbad : ∃ r ∈ rawItems, lineInvalid st r = true) :
    vcStatus (verify_and_create_order env st emailRaw codeRaw (some rawItems)
      nameRaw phoneRaw).1 = 400 ∧
    (verify_and_create_order env st emailRaw codeRaw (some rawItems) nameRaw phoneRaw).2
      = st := by
  have hmain : ∃ resp, vcStatus resp = 400 ∧
      verify_and_create_order env st emailRaw codeRaw (some rawItems) nameRaw phoneRaw =
        (resp, st) := by
    cases hlk : lookupCodeRow (lazySupersede st.codeVerify (normalize_email emailRaw) env.now)
        env.now (normalize_email emailRaw) (pyStrip codeRaw) with
    | none =>
      exact ⟨.invalidOrExpired, rfl, by simp [verify_and_create_order, hmail, hcode, hne, hlk]⟩
    | some codeRow =>
      cases hids : coerceMenuIds rawItems with
      | none =>
        exact ⟨.invalidMenuItem, rfl,
          by simp [verify_and_create_order, hmail, hcode, hne, hlk, hids]⟩
      | some menuIds =>
        have hbuild : ∃ e, build_order_items (fetchMenuMap st.menu menuIds) rawItems
            = .error e := by
          apply build_order_items_error_of_invalid
          obtain ⟨r, hr, hinv⟩ := hbad
          refine ⟨r, hr, ?_⟩
          unfold lineInvalid at hinv
          cases hid : pyInt (rawItemIdValue r) with
          | none => exact Or.inl rfl
          | some i0 =>
            rw [hid] at hinv
            cases hq : rawItemQty r with
            | none => exact Or.inr (Or.inl rfl)
            | some q =>
              rw [hq] at hinv
              simp only [Bool.or_eq_true, decide_eq_true_eq,
                Option.isNone_iff_eq_none] at hinv
              rcases hinv with hlt | hnone
              · exact Or.inr (Or.inr (Or.inl ⟨q, rfl, hlt⟩))
              · refine Or.inr (Or.inr (Or.inr ⟨i0, rfl, ?_⟩))
                unfold fetchMenuMap
                split
                · exact hnone
                · rfl
        obtain ⟨e, he⟩ := hbuild
        exact ⟨.cartError e, rfl,
          by simp [verify_and_create_order, hmail, hcode, hne, hlk, hids, he]⟩
  obtain ⟨resp, h4, hres⟩ := hmain
  rw [hres]
  exact ⟨h4, rfl⟩

/-- C7 witness: a cart whose only line requests quantity 0. -/
theorem c7_witness :
    vcStatus (verify_and_create_order Wenv WstPending "a@b.com" "1234"
      (some WcartBadQty) "" "").1 = 400 ∧
    (verify_and_create_order Wenv WstPending "a@b.com" "1234"
      (some WcartBadQty) "" "").2 = WstPending :=
  c7_invalid_cart_rejected Wenv WstPending "a@b.com" "1234" WcartBadQty "" ""
    (by decide) (by decide) (by decide) (by decide)

/-- C5: the insert retry loop is bounded to 8 attempts in total: duplicate
keys up to a fresh attempt succeed at that attempt, eight straight
duplicates exhaust the loop, any other persistence error at an attempt
propagates immediately as that attempt's failure without further retries;
and a verify-and-create run whose eight candidate reference numbers all
collide returns the 500 server error with the store unchanged (zero
partial writes). -/
theorem c5_bounded_retry :
    (∀ attempt : Nat → TryOutcome, ∀ k, k < 8 → (∀ j, j < k → attempt j = .dupKey) →
      attempt k = .ok → insertLoop attempt = .success k) ∧
    (∀ attempt : Nat → TryOutcome, (∀ j, j < 8 → attempt j = .dupKey) →
      insertLoop attempt = .exhausted) ∧
    (∀ attempt : Nat → TryOutcome, ∀ k, k < 8 → (∀ j, j < k → attempt j = .dupKey) →
      attempt k = .otherErr → insertLoop attempt = .failed k) ∧
    (∀ (env : Env) (st : DBState) (emailRaw codeRaw : String) (rawItems : List RawItem)
      (nameRaw phoneRaw : String) (codeRow : CodeVerifyRow) (menuIds : List Int)
      (orderItems : List OrderItem) (orderTotal : Rat),
      is_valid_email (normalize_email emailRaw) = true →
      codeFormatOk (pyStrip codeRaw) = true →
      rawItems.isEmpty = false →
      lookupCodeRow (lazySupersede st.codeVerify (normalize_email emailRaw) env.now) env.now
        (normalize_email emailRaw) (pyStrip codeRaw) = some codeRow →
      coerceMenuIds rawItems = some menuIds →
      build_order_items (fetchMenuMap st.menu menuIds) rawItems = .ok (orderItems, orderTotal) →
      (∀ j, j < 8 → refNumTaken st.orders (env.refCandidates j) = true) →
      verify_and_create_order env st emailRaw codeRaw (some rawItems) nameRaw phoneRaw =
        (.serverError "Could not create order reference number.", st)) := by
  refine ⟨insertLoop_success, insertLoop_exhausted, insertLoop_failed, ?_⟩
  intro env st emailRaw codeRaw rawItems nameRaw phoneRaw codeRow menuIds orderItems orderTotal
    hmail hcode hne hlk hids hbuild htaken
  have hexh : insertLoop (refAttempt st.orders env) = .exhausted := by
    apply insertLoop_exhausted
    intro j hj
    unfold refAttempt
    rw [htaken j hj]
    rfl
  have hitems : orderItems.isEmpty = false := by
    obtain ⟨_, hlen, _⟩ := build_order_items_ok _ rawItems orderItems orderTotal hbuild
    rw [List.isEmpty_eq_false]
    intro hnil
    rw [hnil] at hlen
    have hraw : rawItems = [] := List.length_eq_zero.mp hlen.symm
    rw [hraw] at hne
    simp at hne
  simp [verify_and_create_order, hmail, hcode, hne, hlk, hids, hbuild, hitems, hexh]

/-- C5 witness: the loop at concrete attempt functions, and a concrete
verify-and-create run whose candidate reference number always collides. -/
theorem c5_witness :
    insertLoop (fun j => if j < 3 then .dupKey else .ok) = .success 3 ∧
    insertLoop (fun _ => .dupKey) = .exhausted ∧
    insertLoop (fun j => if j < 2 then .dupKey else .otherErr) = .failed 2 ∧
    verify_and_create_order Wenv WstTaken "a@b.com" "1234" (some WcartGood) "" "" =
      (.serverError "Could not create order reference number.", WstTaken) := by
  refine ⟨?_, ?_, ?_, ?_⟩
  · exact c5_bounded_retry.1 _ 3 (by decide) (fun j hj => by simp [hj]) (by decide)
  · exact c5_bounded_retry.2.1 _ (fun j _ => rfl)
  · exact c5_bounded_retry.2.2.1 _ 2 (by decide) (fun j hj => by simp [hj]) (by decide)
  · exact c5_bounded_retry.2.2.2 Wenv WstTaken "a@b.com" "1234" WcartGood "" ""
      WrowPending [1] [⟨1, "Kopi", 2, 5, 10, none⟩] 10
      (by decide) (by decide) (by decide) (by decide) (by decide)
      (by with_unfolding_all rfl) (fun j _ => rfl)

end KopiKopi
